import Mathlib

/-!
Shallow embedding of `src/capturer/dash/dashapp_top.py` from the
`bagfiles_capturer` repository, together with proofs of the testable
properties of its specification.  The file's external collaborators
(the data-access object `DAO`, `hash_tools`, the configuration provider
`CONFIG`, the page-provider modules and the callback registry) are
modelled as explicit parameters.
-/

namespace BagfilesCapturer

/-- Python runtime value stored in an account field.  Feeding it to
`io.BytesIO(...)` and reading succeeds exactly when the value is a bytes
object; any non-bytes value makes the `io.BytesIO` constructor raise. -/
inductive PyVal where
  | bytes (data : List Nat)
  | nonBytes (tyName : String)
deriving DecidableEq

/-- Result of `b = io.BytesIO(v); b.read()` as performed inside
`authorization_function` on a stored account field. -/
def bytesIO_read : PyVal → Except String (List Nat)
  | PyVal.bytes d => Except.ok d
  | PyVal.nonBytes t => Except.error ("TypeError: a bytes-like object is required, not " ++ t)

/-- Account row returned by `DAO.query_account`: the salt is stored in the
`misc` column and the salted password hash in the `password` column. -/
structure Account where
  misc : PyVal
  password : PyVal
deriving DecidableEq

/-- Message emitted through `tools.logging_tools.logger`. -/
inductive LogEntry where
  | warning (msg : String)
  | error (msg : String)
deriving DecidableEq

/-- External collaborators used by `authorization_function` and
`DashAppTop.__init__`: the data-access object `DAO` (account lookup by
username and the account count) and `hash_tools.is_correct_password`. -/
structure Env where
  query_account : String → Option Account
  count_accounts : Nat
  is_correct_password : List Nat → List Nat → String → Bool

/-- Translation of `authorization_function` (dashapp_top.py, lines 32-47).
The function returns its boolean outcome paired with the list of log
messages it emitted: a missing account denies silently, a stored field
that fails to read as a byte buffer logs a warning and denies, and
otherwise the result of `hash_tools.is_correct_password` on the stored
salt, stored hash and supplied password is returned directly. -/
def authorization_function (env : Env) (username password : String) :
    Bool × List LogEntry :=
  match env.query_account username with
  | none => (false, [])
  | some account =>
    match bytesIO_read account.misc with
    | Except.error e => (false, [LogEntry.warning ("Error; " ++ e)])
    | Except.ok salt =>
      match bytesIO_read account.password with
      | Except.error e => (false, [LogEntry.warning ("Error; " ++ e)])
      | Except.ok correct =>
        if env.is_correct_password salt correct password then (true, [])
        else (false, [])

/-- Navigation bar variant built in `DashAppTop._define_app`:
`_navbar_with_menu` carries the page links, `_navbar_simple` only the
brand heading. -/
inductive Navbar where
  | with_menu
  | simple
deriving DecidableEq

/-- Content placed into the `page_content` output of the routing callback:
either a plain string (the initial empty string or the 404 message) or the
rendered output of a page provider's `layout()`. -/
inductive PageContent (α : Type) where
  | text (s : String)
  | widget (c : α)
deriving DecidableEq

/-- The five page providers constructed in `DashAppTop.__init__`.  Each
`layout()` call either returns rendered content of type `α` or raises,
modelled by `Except`. -/
structure Pages (α : Type) where
  console_layout : Except String α
  setup_layout : Except String α
  schedule_layout : Except String α
  db_browse_layout : Except String α
  db_query_layout : Except String α

/-- Body of the `try` block of `display_page` (dashapp_top.py, lines
134-148): the if/elif chain over the pathname, selecting the matching
provider's `layout()` (whose exception propagates to the handler), with
the root path aliasing the console page and the final `else` producing
the fixed 404 string without any possibility of raising. -/
def render_for_path {α : Type} (pages : Pages α) (pathname : String) :
    Except String (PageContent α) :=
  if pathname = "/page_console" then Except.map PageContent.widget pages.console_layout
  else if pathname = "/page_setup" then Except.map PageContent.widget pages.setup_layout
  else if pathname = "/page_schedule" then Except.map PageContent.widget pages.schedule_layout
  else if pathname = "/page_db_browser" then Except.map PageContent.widget pages.db_browse_layout
  else if pathname = "/page_db_query" then Except.map PageContent.widget pages.db_query_layout
  else if pathname = "/" then Except.map PageContent.widget pages.console_layout
  else Except.ok (PageContent.text "404 Page Error! Please choose a link")

/-- Translation of the routing callback `display_page` returned by
`DashAppTop._display_page` (dashapp_top.py, lines 130-152).
`page_content` starts as the empty string and `nav_content` as the
with-menu navigation bar; any exception escaping the `try` block is
logged via `logger.error` and leaves `page_content` at its initial empty
string.  The callback's pair is returned together with the emitted log. -/
def display_page {α : Type} (pages : Pages α) (pathname : String) :
    (PageContent α × Navbar) × List LogEntry :=
  match render_for_path pages pathname with
  | Except.ok page_content => ((page_content, Navbar.with_menu), [])
  | Except.error e => ((PageContent.text "", Navbar.with_menu), [LogEntry.error e])

/-- Modelled from the spec: `model.CallbackTypes` is not under src.  The
spec describes a process-wide callback registry where named events are
fired; the only member this file uses is `TIMER`, and `named` stands for
the remaining names of the enumeration. -/
inductive CallbackTypes where
  | TIMER
  | named (name : String)
deriving DecidableEq

/-- Translation of the timer callback `dash_system_timer` returned by
`DashAppTop._dash_system_timer` (dashapp_top.py, lines 155-159): the list
of events fired to `model.CALLBACK_MANAGER` during the call, paired with
the value returned to the framework, which is the tick count `n`. -/
def dash_system_timer (n : Nat) (pathname : String) : List CallbackTypes × Nat :=
  ([CallbackTypes.TIMER], n)

/-- Configuration provider `CONFIG` (a `YamlConfig`), whose `get` takes a
key and an optional default; lookups are split by the type of the stored
YAML value since the Python values are heterogeneous. -/
structure YamlConfig where
  get_str : String → Option String
  get_nat : String → Option Nat
  get_bool : String → Option Bool

/-- Authentication gate installed by `DashAppTop.__init__`: a
`dash_auth.BasicAuth` wrapping the authorization function. -/
structure BasicAuth where
  auth_func : String → String → Bool × List LogEntry

/-- State established by `DashAppTop.__init__` that the claims refer to. -/
structure DashAppTop where
  DASH_HOST : Option String
  DASH_PORT : Option Nat
  SYSTEM_TIMER : Nat
  auth : Option BasicAuth

/-- Translation of `DashAppTop.__init__` (dashapp_top.py, lines 64-74):
the configuration reads, the timer interval computed as
`CONFIG.get('capturer.system.timer', 1) * 1000`, and the conditional
installation of `BasicAuth` when the `capturer.web.auth` flag (default
false) holds and `DAO.count_accounts()` is positive. -/
def DashAppTop.init (cfg : YamlConfig) (env : Env) : DashAppTop :=
  { DASH_HOST := cfg.get_str ("capturer.web.host")
    DASH_PORT := cfg.get_nat ("capturer.web.port")
    SYSTEM_TIMER := (cfg.get_nat ("capturer.system.timer")).getD 1 * 1000
    auth :=
      if (cfg.get_bool ("capturer.web.auth")).getD false then
        if env.count_accounts > 0 then
          some { auth_func := fun u p => authorization_function env u p }
        else none
      else none }

/-! Concrete inputs used by the witness theorems. -/

/-- Account whose stored salt and hash are well-formed byte buffers. -/
def demoAccount : Account :=
  { misc := PyVal.bytes [1, 2], password := PyVal.bytes [3, 4] }

/-- Account whose stored salt field is not a bytes object. -/
def badAccount : Account :=
  { misc := PyVal.nonBytes ("int"), password := PyVal.bytes [3, 4] }

/-- Concrete environment: two accounts and a hash check that accepts
exactly the password "sesame" against the stored salt and hash of
`demoAccount`. -/
def demoEnv : Env :=
  { query_account := fun u =>
      if u = "alice" then some demoAccount
      else if u = "mallory" then some badAccount
      else none
    count_accounts := 2
    is_correct_password := fun salt correct p =>
      salt = [1, 2] && correct = [3, 4] && p = "sesame" }

/-- Concrete page providers whose layouts all render successfully. -/
def demoPages : Pages String :=
  { console_layout := Except.ok ("console dashboard")
    setup_layout := Except.ok ("setup form")
    schedule_layout := Except.ok ("schedule table")
    db_browse_layout := Except.ok ("db browser")
    db_query_layout := Except.ok ("db query") }

/-- Concrete page providers whose console layout raises. -/
def demoPagesBad : Pages String :=
  { demoPages with console_layout := Except.error ("boom") }

/-- Concrete configuration: auth enabled, timer key set to 5 seconds. -/
def demoCfg : YamlConfig :=
  { get_str := fun k => if k = "capturer.web.host" then some ("0.0.0.0") else none
    get_nat := fun k =>
      if k = "capturer.web.port" then some 8050
      else if k = "capturer.system.timer" then some 5
      else none
    get_bool := fun k => if k = "capturer.web.auth" then some true else none }

/-- Concrete configuration with no timer key. -/
def demoCfgNoTimer : YamlConfig :=
  { demoCfg with get_nat := fun k => if k = "capturer.web.port" then some 8050 else none }

/-! The claims. -/

/-- Claim C1: whenever the account lookup returns an account and both
stored credential fields read successfully as byte buffers,
`authorization_function` returns true if and only if
`hash_tools.is_correct_password` returns true for the supplied password
with the stored salt and hash. -/
theorem C1_auth_iff_hash_check (env : Env) (username password : String)
    (account : Account) (salt correct : List Nat)
    (hacc : env.query_account username = some account)
    (hsalt : bytesIO_read account.misc = Except.ok salt)
    (hpw : bytesIO_read account.password = Except.ok correct) :
    (authorization_function env username password).1 = true ↔
      env.is_correct_password salt correct password = true := by
  simp only [authorization_function, hacc, hsalt, hpw]
  by_cases h : env.is_correct_password salt correct password = true <;> simp [h]

/-- Witness for C1 at the concrete environment `demoEnv` and the account
"alice" with the correct password. -/
theorem C1_auth_iff_hash_check_witness :
    (authorization_function demoEnv "alice" "sesame").1 = true ↔
      demoEnv.is_correct_password [1, 2] [3, 4] "sesame" = true :=
  C1_auth_iff_hash_check demoEnv "alice" "sesame" demoAccount [1, 2] [3, 4]
    (by decide) rfl rfl

/-- Claim C2: whenever the account lookup returns an account one of whose
stored credential fields fails to read as a byte buffer,
`authorization_function` emits a warning to the log and returns false. -/
theorem C2_malformed_fields_deny (env : Env) (username password : String)
    (account : Account)
    (hacc : env.query_account username = some account)
    (hbad : (∃ e, bytesIO_read account.misc = Except.error e) ∨
            (∃ e, bytesIO_read account.password = Except.error e)) :
    (authorization_function env username password).1 = false ∧
      ∃ m, LogEntry.warning m ∈ (authorization_function env username password).2 := by
  rcases hbad with ⟨e, he⟩ | ⟨e, he⟩
  · simp [authorization_function, hacc, he]
  · rcases hm : bytesIO_read account.misc with em | salt
    · simp [authorization_function, hacc, hm]
    · simp [authorization_function, hacc, hm, he]

/-- Witness for C2 at the concrete environment `demoEnv` and the account
"mallory", whose stored salt field is not a bytes object. -/
theorem C2_malformed_fields_deny_witness :
    (authorization_function demoEnv "mallory" "sesame").1 = false ∧
      ∃ m, LogEntry.warning m ∈ (authorization_function demoEnv "mallory" "sesame").2 :=
  C2_malformed_fields_deny demoEnv "mallory" "sesame" badAccount
    (by decide) (Or.inl ⟨"TypeError: a bytes-like object is required, not int", rfl⟩)

/-- Claim C3: whenever the account lookup returns no account for the
username, `authorization_function` returns false. -/
theorem C3_missing_account_denies (env : Env) (username password : String)
    (hacc : env.query_account username = none) :
    (authorization_function env username password).1 = false := by
  simp [authorization_function, hacc]

/-- Witness for C3 at the concrete environment `demoEnv` and an unknown
username. -/
theorem C3_missing_account_denies_witness :
    (authorization_function demoEnv "nobody" "sesame").1 = false :=
  C3_missing_account_denies demoEnv "nobody" "sesame" (by decide)

/-- Claim C4: whenever the matched page provider's layout raises during
rendering, `display_page` catches the exception, logs it through
`logger.error`, and returns the initial empty page content together with
the already-computed with-menu navigation bar instead of propagating. -/
theorem C4_render_failure_caught {α : Type} (pages : Pages α) (pathname : String)
    (e : String)
    (hraise : render_for_path pages pathname = Except.error e) :
    display_page pages pathname =
      ((PageContent.text "", Navbar.with_menu), [LogEntry.error e]) := by
  simp [display_page, hraise]

/-- Witness for C4 at the concrete pages `demoPagesBad`, whose console
layout raises, and the console path. -/
theorem C4_render_failure_caught_witness :
    display_page demoPagesBad "/page_console" =
      ((PageContent.text "", Navbar.with_menu), [LogEntry.error "boom"]) :=
  C4_render_failure_caught demoPagesBad "/page_console" "boom" rfl

/-- Claim C5: for each recognized path whose provider's layout renders
content `c`, `display_page` returns exactly that content together with
the with-menu navigation bar; the root path uses the console provider. -/
theorem C5_known_paths_dispatch {α : Type} (pages : Pages α) (c : α) :
    (pages.console_layout = Except.ok c →
      display_page pages "/page_console" = ((PageContent.widget c, Navbar.with_menu), [])) ∧
    (pages.setup_layout = Except.ok c →
      display_page pages "/page_setup" = ((PageContent.widget c, Navbar.with_menu), [])) ∧
    (pages.schedule_layout = Except.ok c →
      display_page pages "/page_schedule" = ((PageContent.widget c, Navbar.with_menu), [])) ∧
    (pages.db_browse_layout = Except.ok c →
      display_page pages "/page_db_browser" = ((PageContent.widget c, Navbar.with_menu), [])) ∧
    (pages.db_query_layout = Except.ok c →
      display_page pages "/page_db_query" = ((PageContent.widget c, Navbar.with_menu), [])) ∧
    (pages.console_layout = Except.ok c →
      display_page pages "/" = ((PageContent.widget c, Navbar.with_menu), [])) := by
  refine ⟨?_, ?_, ?_, ?_, ?_, ?_⟩ <;> intro h <;>
    simp [display_page, render_for_path, h, Except.map]

/-- Witness for C5 at the concrete pages `demoPages` and the console
path. -/
theorem C5_known_paths_dispatch_witness :
    display_page demoPages "/page_console" =
      ((PageContent.widget "console dashboard", Navbar.with_menu), []) :=
  (C5_known_paths_dispatch demoPages "console dashboard").1 rfl

/-- Claim C6: routing the root path returns the same output as routing
the console page's path, for every set of page providers. -/
theorem C6_root_aliases_console {α : Type} (pages : Pages α) :
    display_page pages "/" = display_page pages "/page_console" := by
  simp [display_page, render_for_path]

/-- Claim C7: for every pathname outside the six recognized paths,
`display_page` returns the fixed 404 fallback string together with the
with-menu navigation bar, which is distinct from the simple (error-style)
navigation bar. -/
theorem C7_unknown_path_fallback {α : Type} (pages : Pages α) (pathname : String)
    (h1 : pathname ≠ "/page_console") (h2 : pathname ≠ "/page_setup")
    (h3 : pathname ≠ "/page_schedule") (h4 : pathname ≠ "/page_db_browser")
    (h5 : pathname ≠ "/page_db_query") (h6 : pathname ≠ "/") :
    display_page pages pathname =
      ((PageContent.text "404 Page Error! Please choose a link", Navbar.with_menu), []) ∧
      Navbar.with_menu ≠ Navbar.simple := by
  refine ⟨?_, by simp⟩
  simp [display_page, render_for_path, h1, h2, h3, h4, h5, h6]

/-- Witness for C7 at the concrete pages `demoPages` and an unrecognized
path. -/
theorem C7_unknown_path_fallback_witness :
    display_page demoPages "/no_such_page" =
      ((PageContent.text "404 Page Error! Please choose a link", Navbar.with_menu), []) ∧
      Navbar.with_menu ≠ Navbar.simple :=
  C7_unknown_path_fallback demoPages "/no_such_page"
    (by decide) (by decide) (by decide) (by decide) (by decide) (by decide)

/-- Claim C8: for every tick count and pathname, the timer callback fires
exactly the single TIMER event to the callback registry and returns the
tick count unchanged. -/
theorem C8_timer_fires_once (n : Nat) (pathname : String) :
    (dash_system_timer n pathname).1 = [CallbackTypes.TIMER] ∧
      (dash_system_timer n pathname).2 = n :=
  ⟨rfl, rfl⟩

/-- Claim C9: the periodic timer interval stored in `SYSTEM_TIMER` is the
configured `capturer.system.timer` value in seconds multiplied by 1000,
and 1000 milliseconds when the configuration key is absent. -/
theorem C9_timer_interval_ms (cfg : YamlConfig) (env : Env) :
    (∀ s, cfg.get_nat "capturer.system.timer" = some s →
      (DashAppTop.init cfg env).SYSTEM_TIMER = s * 1000) ∧
    (cfg.get_nat "capturer.system.timer" = none →
      (DashAppTop.init cfg env).SYSTEM_TIMER = 1000) := by
  constructor
  · intro s hs
    simp [DashAppTop.init, hs]
  · intro h
    simp [DashAppTop.init, h]

/-- Witness for C9 at the concrete configuration `demoCfg`, whose timer
key holds 5 seconds. -/
theorem C9_timer_interval_ms_witness :
    (DashAppTop.init demoCfg demoEnv).SYSTEM_TIMER = 5 * 1000 :=
  (C9_timer_interval_ms demoCfg demoEnv).1 5 (by decide)

/-- Claim C10: after construction, the authentication gate is installed
if and only if the `capturer.web.auth` flag (default false) is true and
the account store holds at least one account. -/
theorem C10_auth_installed_iff (cfg : YamlConfig) (env : Env) :
    (DashAppTop.init cfg env).auth.isSome = true ↔
      ((cfg.get_bool "capturer.web.auth").getD false = true ∧
        env.count_accounts > 0) := by
  by_cases hb : (cfg.get_bool "capturer.web.auth").getD false = true <;>
    by_cases hc : env.count_accounts > 0 <;>
      simp [DashAppTop.init, hb, hc]

end BagfilesCapturer

